import Mathlib

/-!
Shallow embedding of the expense-transaction core of `server/lib/transactions.ts`
(source file `src/unnamed/part_000`): `computeExpenseAmounts`,
`createTransactionsFromPaidExpense`, `createTransactionsForManuallyPaidExpense`
and `computeExpenseTaxes`.

Modelling conventions:
- JavaScript numbers are modelled as exact rationals (`ℚ`); monetary amounts in
  minor units are integers (`ℤ`).
- `Math.round x` is `⌊x + 1/2⌋` (half-way cases round toward +∞), which matches
  JS semantics on all finite inputs.
- lodash `round(x, p)` shifts by `10^p` decimally, rounds, and shifts back.
- `throw new Error(msg)` / a failed `assert(cond, msg)` become `Except.error msg`;
  the records handed to `models.Transaction.createDoubleEntry` become the
  `Except.ok` payload (the storage write itself is a collaborator, out of scope).
- `expense.collective` is taken as already loaded (the `findByPk` fallback is a
  storage collaborator); `expense.data.taxes` is embedded as `Expense.taxes`.
- The free-form `data` payload is an association list with JS object-spread
  semantics: a later binding for the same key overrides an earlier one.
-/

namespace Transactions

/-- JS `Math.round`: round half toward positive infinity. -/
def jsRound (q : ℚ) : ℤ := ⌊q + 1/2⌋

/-- lodash `round(x, p)`: round to `p` decimal places. -/
def jsRoundP (q : ℚ) (p : ℕ) : ℚ := (jsRound (q * (10 : ℚ) ^ p) : ℚ) / (10 : ℚ) ^ p

/-- Modelled from the spec: `toNegative` is imported from `../lib/math`, which is
not under `src/`. The spec's invariant section says every outflow-representing
field (fees, gross debit amount) is stored as a negative number, and that each
fee field is the negated (non-negative) host-currency fee value; accordingly
`toNegative` maps a number to its non-positive counterpart. -/
def toNegative (x : ℤ) : ℤ := -|x|

/-- A collective, reduced to what the core reads: its currency. -/
structure Collective where
  currency : String
deriving DecidableEq

/-- A fiscal host. -/
structure Host where
  id : ℤ
  currency : String
deriving DecidableEq

/-- One entry of `expense.data.taxes`: a tax type code and a fractional rate. -/
structure TaxLine where
  type : String
  rate : ℚ
deriving DecidableEq

/-- An expense as read by the transaction builders. `taxes` embeds
`expense.data.taxes` (empty list for a missing/empty array). -/
structure Expense where
  id : ℤ
  amount : ℤ
  currency : String
  description : String
  feesPayer : String
  UserId : ℤ
  CollectiveId : ℤ
  FromCollectiveId : ℤ
  PayoutMethodId : ℤ
  collective : Collective
  taxes : List TaxLine
deriving DecidableEq

/-- `FEES_IN_HOST_CURRENCY`: the three optional host-currency fee amounts. -/
structure FeesInput where
  paymentProcessorFeeInHostCurrency : Option ℤ
  hostFeeInHostCurrency : Option ℤ
  platformFeeInHostCurrency : Option ℤ
deriving DecidableEq

/-- Fees after `\x7b ...DEFAULT_FEES, ...fees \x7d`: every field present. -/
structure Fees where
  paymentProcessorFeeInHostCurrency : ℤ
  hostFeeInHostCurrency : ℤ
  platformFeeInHostCurrency : ℤ
deriving DecidableEq

/-- `fees = \x7b ...DEFAULT_FEES, ...fees \x7d`: missing fields default to 0. -/
def mergeDefaultFees (f : FeesInput) : Fees where
  paymentProcessorFeeInHostCurrency := f.paymentProcessorFeeInHostCurrency.getD 0
  hostFeeInHostCurrency := f.hostFeeInHostCurrency.getD 0
  platformFeeInHostCurrency := f.platformFeeInHostCurrency.getD 0

/-- The `fxRates` object of `computeExpenseAmounts`, fields in source order. -/
structure FxRates where
  expenseToHost : ℚ
  collectiveToHost : ℚ
  expenseToCollective : ℚ
deriving DecidableEq

/-- One amount expressed in the three relevant currencies. -/
structure AmountTriple where
  inHostCurrency : ℤ
  inCollectiveCurrency : ℤ
  inExpenseCurrency : ℤ
deriving DecidableEq

/-- Return value of `computeExpenseAmounts`. -/
structure ProcessedAmounts where
  fxRates : FxRates
  amount : AmountTriple
  paymentProcessorFee : AmountTriple
  hostFee : AmountTriple
  platformFee : AmountTriple
deriving DecidableEq

/-- The error message thrown for unsupported multi-currency combinations. -/
def unsupportedCurrencyMsg : String :=
  "Multi-currency expenses are not supported for collectives that have a different currency than their hosts"

/-- The amounts block returned by `computeExpenseAmounts` (source lines 110-133),
shared by both successful branches and parameterised by the resolved fxRates. -/
def computeAmountsWith (expense : Expense) (fees : Fees) (fxRates : FxRates) :
    ProcessedAmounts where
  fxRates := fxRates
  amount :=
    { inHostCurrency := jsRound ((expense.amount : ℚ) * fxRates.expenseToHost)
      inCollectiveCurrency := jsRound ((expense.amount : ℚ) * fxRates.expenseToCollective)
      inExpenseCurrency := expense.amount }
  paymentProcessorFee :=
    { inHostCurrency := fees.paymentProcessorFeeInHostCurrency
      inCollectiveCurrency :=
        jsRound ((fees.paymentProcessorFeeInHostCurrency : ℚ) / fxRates.collectiveToHost)
      inExpenseCurrency :=
        jsRound ((fees.paymentProcessorFeeInHostCurrency : ℚ) / fxRates.expenseToHost) }
  hostFee :=
    { inHostCurrency := fees.hostFeeInHostCurrency
      inCollectiveCurrency := jsRound ((fees.hostFeeInHostCurrency : ℚ) / fxRates.collectiveToHost)
      inExpenseCurrency := jsRound ((fees.hostFeeInHostCurrency : ℚ) / fxRates.expenseToHost) }
  platformFee :=
    { inHostCurrency := fees.platformFeeInHostCurrency
      inCollectiveCurrency :=
        jsRound ((fees.platformFeeInHostCurrency : ℚ) / fxRates.collectiveToHost)
      inExpenseCurrency := jsRound ((fees.platformFeeInHostCurrency : ℚ) / fxRates.expenseToHost) }

/-- `computeExpenseAmounts` (source lines 85-134). The FX triple is resolved
from the currency combination; unsupported combinations throw. -/
def computeExpenseAmounts (expense : Expense) (hostCurrency : String)
    (expenseToHostFxRate : ℚ) (fees : Fees) : Except String ProcessedAmounts :=
  if expense.collective.currency = hostCurrency then
    Except.ok (computeAmountsWith expense fees
      { expenseToHost := expenseToHostFxRate
        collectiveToHost := 1
        expenseToCollective := expenseToHostFxRate })
  else if expense.currency = expense.collective.currency then
    Except.ok (computeAmountsWith expense fees
      { expenseToHost := expenseToHostFxRate
        collectiveToHost := expenseToHostFxRate
        expenseToCollective := 1 })
  else
    Except.error unsupportedCurrencyMsg

/-- `computeExpenseTaxes` (source lines 295-303). `-Math.round(...) || 0` only
normalises a negative zero, which does not exist in `ℤ`. -/
def computeExpenseTaxes (expense : Expense) : Option ℤ :=
  if expense.taxes.isEmpty then
    none
  else
    let ratesSum : ℚ := (expense.taxes.map TaxLine.rate).sum
    let amountWithoutTaxes : ℚ := (expense.amount : ℚ) / (1 + ratesSum)
    some (-jsRound ((expense.amount : ℚ) - amountWithoutTaxes))

/-- A value stored in the free-form `data` payload. -/
inductive DataValue where
  | bool (b : Bool)
  | num (q : ℚ)
  | str (s : String)
  | tax (type : String) (id : String) (rate : ℚ) (percentage : ℤ)
deriving DecidableEq

/-- A JS object as a list of key-value pairs, in spread/insertion order. -/
abbrev JsObject := List (String × DataValue)

/-- Key lookup with JS object-spread semantics: the last binding wins. -/
def jsGet (o : JsObject) (k : String) : Option DataValue :=
  o.foldl (fun acc kv => if kv.1 = k then some kv.2 else acc) none

/-- lodash `set(obj, key, value)`: the new binding overrides prior ones. -/
def jsSet (o : JsObject) (k : String) (v : DataValue) : JsObject := o ++ [(k, v)]

/-- The `data.tax` block built from the first tax line (source lines 163-170 and
259-266): the line's fields plus `id` = its type, `rate` rounded to 4 decimals
and a legacy integer `percentage`. -/
def expenseTaxDataEntries (expense : Expense) : JsObject :=
  match expense.taxes with
  | [] => []
  | t :: _ => [("tax", DataValue.tax t.type t.type (jsRoundP t.rate 4) (jsRound (t.rate * 100)))]

/-- The transaction object handed to `models.Transaction.createDoubleEntry`.
Reference/identity fields are kept; `data` carries the merged payload. -/
structure TransactionRecord where
  netAmountInCollectiveCurrency : ℤ
  amountInHostCurrency : ℤ
  hostCurrency : String
  hostCurrencyFxRate : ℚ
  paymentProcessorFeeInHostCurrency : ℤ
  hostFeeInHostCurrency : ℤ
  platformFeeInHostCurrency : ℤ
  ExpenseId : ℤ
  type : String
  kind : String
  amount : ℤ
  currency : String
  description : String
  CreatedByUserId : ℤ
  CollectiveId : ℤ
  FromCollectiveId : ℤ
  HostCollectiveId : ℤ
  PaymentMethodId : Option ℤ
  PayoutMethodId : ℤ
  taxAmount : Option ℤ
  data : JsObject
deriving DecidableEq

/-- The `expenseToHostFxRateConfig` argument: an explicit rate or the sentinel
string `auto`. -/
inductive FxRateConfig where
  | explicit (rate : ℚ)
  | auto
deriving DecidableEq

/-- Resolution of `expenseToHostFxRateConfig` (source lines 157-160): an
explicit rate is used as-is, `auto` takes the rate fetched by the `getFxRate`
collaborator (passed in as `liveRate`). -/
def resolveFxRate (expenseToHostFxRateConfig : FxRateConfig) (liveRate : ℚ) : ℚ :=
  match expenseToHostFxRateConfig with
  | FxRateConfig.auto => liveRate
  | FxRateConfig.explicit r => r

/-- `createTransactionsFromPaidExpense` (source lines 142-216). `liveRate`
models the value returned by the `getFxRate` collaborator when the config is
`auto`. The returned record is the one submitted to the double-entry writer. -/
def createTransactionsFromPaidExpense (host : Host) (expense : Expense)
    (feesInput : FeesInput) (expenseToHostFxRateConfig : FxRateConfig) (liveRate : ℚ)
    (transactionData : Option JsObject) (paymentMethodId : Option ℤ) :
    Except String TransactionRecord :=
  let fees := mergeDefaultFees feesInput
  let expenseToHostFxRate : ℚ := resolveFxRate expenseToHostFxRateConfig liveRate
  let expenseDataForTransaction : JsObject :=
    ("expenseToHostFxRate", DataValue.num expenseToHostFxRate) :: expenseTaxDataEntries expense
  match computeExpenseAmounts expense host.currency expenseToHostFxRate fees with
  | Except.error e => Except.error e
  | Except.ok processedAmounts =>
    let transaction : TransactionRecord :=
      { netAmountInCollectiveCurrency :=
          -1 * (processedAmounts.amount.inCollectiveCurrency +
            processedAmounts.paymentProcessorFee.inCollectiveCurrency +
            processedAmounts.hostFee.inCollectiveCurrency +
            processedAmounts.platformFee.inCollectiveCurrency)
        amountInHostCurrency := -processedAmounts.amount.inHostCurrency
        hostCurrency := host.currency
        hostCurrencyFxRate := processedAmounts.fxRates.collectiveToHost
        paymentProcessorFeeInHostCurrency := toNegative fees.paymentProcessorFeeInHostCurrency
        hostFeeInHostCurrency := toNegative fees.hostFeeInHostCurrency
        platformFeeInHostCurrency := toNegative fees.platformFeeInHostCurrency
        ExpenseId := expense.id
        type := "DEBIT"
        kind := "EXPENSE"
        amount := -processedAmounts.amount.inCollectiveCurrency
        currency := expense.collective.currency
        description := expense.description
        CreatedByUserId := expense.UserId
        CollectiveId := expense.CollectiveId
        FromCollectiveId := expense.FromCollectiveId
        HostCollectiveId := host.id
        PaymentMethodId := paymentMethodId
        PayoutMethodId := expense.PayoutMethodId
        taxAmount := computeExpenseTaxes expense
        data := (transactionData.getD []) ++ expenseDataForTransaction }
    if expense.feesPayer = "PAYEE" then
      Except.ok
        { transaction with
          amount := transaction.amount + processedAmounts.paymentProcessorFee.inCollectiveCurrency
          amountInHostCurrency := transaction.amountInHostCurrency +
            processedAmounts.paymentProcessorFee.inHostCurrency
          netAmountInCollectiveCurrency := transaction.netAmountInCollectiveCurrency +
            processedAmounts.paymentProcessorFee.inCollectiveCurrency
          data := jsSet transaction.data "feesPayer" (DataValue.str "PAYEE") }
    else
      Except.ok transaction

/-- `createTransactionsForManuallyPaidExpense` (source lines 218-293). The two
`assert` preconditions and the currency `assert` become errors; the returned
record is the one submitted to the double-entry writer. -/
def createTransactionsForManuallyPaidExpense (host : Host) (expense : Expense)
    (paymentProcessorFeeInHostCurrency : ℤ) (totalAmountPaidInHostCurrency : ℤ)
    (transactionData : JsObject) : Except String TransactionRecord :=
  if 0 ≤ paymentProcessorFeeInHostCurrency then
   if 0 < totalAmountPaidInHostCurrency then
    let isCoveredByPayee := expense.feesPayer = "PAYEE"
    let grossAmount := toNegative (totalAmountPaidInHostCurrency - paymentProcessorFeeInHostCurrency)
    let netAmountInCollectiveCurrency := toNegative totalAmountPaidInHostCurrency
    let transactionData :=
      if isCoveredByPayee then jsSet transactionData "feesPayer" (DataValue.str "PAYEE")
      else transactionData
    let adjust :
        Except String (ℤ × ℤ × ℚ) :=
      if host.currency ≠ expense.collective.currency then
        if expense.currency ≠ expense.collective.currency then
          Except.error "Expense currency must be the same as collective currency"
        else
          let hostCurrencyFxRate := jsRoundP |(grossAmount : ℚ) / (expense.amount : ℚ)| 5
          Except.ok
            (jsRound ((grossAmount : ℚ) / hostCurrencyFxRate),
             jsRound ((netAmountInCollectiveCurrency : ℚ) / hostCurrencyFxRate),
             hostCurrencyFxRate)
      else
        Except.ok (grossAmount, netAmountInCollectiveCurrency, 1)
    match adjust with
    | Except.error e => Except.error e
    | Except.ok (amount, net, hostCurrencyFxRate) =>
      Except.ok
        { netAmountInCollectiveCurrency := net
          amountInHostCurrency := grossAmount
          hostCurrency := host.currency
          hostCurrencyFxRate := hostCurrencyFxRate
          paymentProcessorFeeInHostCurrency := toNegative paymentProcessorFeeInHostCurrency
          hostFeeInHostCurrency := 0
          platformFeeInHostCurrency := 0
          ExpenseId := expense.id
          type := "DEBIT"
          kind := "EXPENSE"
          amount := amount
          currency := expense.collective.currency
          description := expense.description
          CreatedByUserId := expense.UserId
          CollectiveId := expense.CollectiveId
          FromCollectiveId := expense.FromCollectiveId
          HostCollectiveId := host.id
          PaymentMethodId := none
          PayoutMethodId := expense.PayoutMethodId
          taxAmount := computeExpenseTaxes expense
          data := ("isManual", DataValue.bool true) :: transactionData ++ expenseTaxDataEntries expense }
   else Except.error "Total amount paid must be positive"
  else Except.error "Payment processor fee must be positive"

end Transactions

namespace Transactions

/-! ### Basic facts about the rounding helpers -/

theorem jsRound_close (q : ℚ) : |(jsRound q : ℚ) - q| ≤ 1/2 := by
  rw [abs_le]
  constructor
  · have h := Int.lt_floor_add_one (q + 1/2)
    unfold jsRound
    linarith
  · have h := Int.floor_le (q + 1/2)
    unfold jsRound
    linarith

theorem toNegative_of_nonneg {x : ℤ} (h : 0 ≤ x) : toNegative x = -x := by
  simp [toNegative, abs_of_nonneg h]

/-! ### Sample inputs used by witnesses and counterexamples -/

/-- A sample expense: 10000 minor units in USD, for a USD collective. -/
def sampleExpense : Expense where
  id := 1
  amount := 10000
  currency := "USD"
  description := "Invoice"
  feesPayer := "COLLECTIVE"
  UserId := 11
  CollectiveId := 21
  FromCollectiveId := 31
  PayoutMethodId := 41
  collective := { currency := "USD" }
  taxes := []

/-- A sample USD host. -/
def sampleHost : Host := { id := 9, currency := "USD" }

/-- The all-absent fee input (all fees default to 0). -/
def sampleFees : FeesInput where
  paymentProcessorFeeInHostCurrency := none
  hostFeeInHostCurrency := none
  platformFeeInHostCurrency := none

/-- An expense in USD for a EUR collective: only the collective currency
differs from a USD host. -/
def sampleExpenseUsdEur : Expense :=
  { sampleExpense with currency := "USD", collective := { currency := "EUR" } }

/-- A 1200-unit expense with a single 20 percent tax line. -/
def sampleTaxExpense : Expense :=
  { sampleExpense with amount := 1200, taxes := [{ type := "VAT", rate := 1/5 }] }

/-- A 1200-unit expense with a single zero-rate tax line. -/
def sampleZeroTaxExpense : Expense :=
  { sampleExpense with amount := 1200, taxes := [{ type := "VAT", rate := 0 }] }

/-! ### C1 -/

/-- C1: for every expense, host currency, positive FX rate and fees: if the
collective currency equals the host currency, the returned fxRates have
collectiveToHost = 1 and expenseToCollective = the input rate; otherwise, if
the expense currency equals the collective currency, they have
collectiveToHost = the input rate and expenseToCollective = 1; in both cases
expenseToHost is the input rate unchanged. -/
theorem computeExpenseAmounts_fxRates_spec (e : Expense) (hostCurrency : String)
    (r : ℚ) (fees : Fees) (hr : 0 < r) :
    (e.collective.currency = hostCurrency →
      ∃ res, computeExpenseAmounts e hostCurrency r fees = Except.ok res ∧
        res.fxRates.collectiveToHost = 1 ∧ res.fxRates.expenseToCollective = r ∧
        res.fxRates.expenseToHost = r) ∧
    (e.collective.currency ≠ hostCurrency → e.currency = e.collective.currency →
      ∃ res, computeExpenseAmounts e hostCurrency r fees = Except.ok res ∧
        res.fxRates.collectiveToHost = r ∧ res.fxRates.expenseToCollective = 1 ∧
        res.fxRates.expenseToHost = r) := by
  constructor
  · intro h
    refine ⟨computeAmountsWith e fees
      { expenseToHost := r, collectiveToHost := 1, expenseToCollective := r }, ?_, rfl, rfl, rfl⟩
    simp [computeExpenseAmounts, h]
  · intro h1 h2
    refine ⟨computeAmountsWith e fees
      { expenseToHost := r, collectiveToHost := r, expenseToCollective := 1 }, ?_, rfl, rfl, rfl⟩
    simp [computeExpenseAmounts, h1, h2]

/-- C1 witness: the theorem applied at a concrete input. -/
theorem computeExpenseAmounts_fxRates_spec_witness :
    (0:ℚ) < 2 ∧
    ((sampleExpense.collective.currency = "USD" →
      ∃ res, computeExpenseAmounts sampleExpense "USD" 2 (mergeDefaultFees sampleFees) =
          Except.ok res ∧
        res.fxRates.collectiveToHost = 1 ∧ res.fxRates.expenseToCollective = 2 ∧
        res.fxRates.expenseToHost = 2) ∧
    (sampleExpense.collective.currency ≠ "USD" → sampleExpense.currency = sampleExpense.collective.currency →
      ∃ res, computeExpenseAmounts sampleExpense "USD" 2 (mergeDefaultFees sampleFees) =
          Except.ok res ∧
        res.fxRates.collectiveToHost = 2 ∧ res.fxRates.expenseToCollective = 1 ∧
        res.fxRates.expenseToHost = 2)) :=
  ⟨by norm_num,
   computeExpenseAmounts_fxRates_spec sampleExpense "USD" 2 (mergeDefaultFees sampleFees)
     (by norm_num)⟩

/-! ### C2 -/

/-- The three representations the source builds for one host-currency fee:
the input unchanged in host currency, divided by collectiveToHost and rounded
in collective currency, divided by expenseToHost and rounded in expense
currency. -/
def feeRepr (f : AmountTriple) (feeInHost : ℤ) (fx : FxRates) : Prop :=
  f.inHostCurrency = feeInHost ∧
  f.inCollectiveCurrency = jsRound ((feeInHost : ℚ) / fx.collectiveToHost) ∧
  f.inExpenseCurrency = jsRound ((feeInHost : ℚ) / fx.expenseToHost)

/-- C2: whenever computeExpenseAmounts succeeds, the gross amount is returned
as round(amount × expenseToHost) in host currency, round(amount ×
expenseToCollective) in collective currency and the raw amount in expense
currency, and each of the three fees as the input in host currency,
round(input / collectiveToHost) in collective currency and round(input /
expenseToHost) in expense currency, each rounding independent. -/
theorem computeExpenseAmounts_representations_spec (e : Expense) (hc : String)
    (r : ℚ) (fees : Fees) (res : ProcessedAmounts)
    (h : computeExpenseAmounts e hc r fees = Except.ok res) :
    (res.amount.inHostCurrency = jsRound ((e.amount : ℚ) * res.fxRates.expenseToHost) ∧
     res.amount.inCollectiveCurrency = jsRound ((e.amount : ℚ) * res.fxRates.expenseToCollective) ∧
     res.amount.inExpenseCurrency = e.amount) ∧
    feeRepr res.paymentProcessorFee fees.paymentProcessorFeeInHostCurrency res.fxRates ∧
    feeRepr res.hostFee fees.hostFeeInHostCurrency res.fxRates ∧
    feeRepr res.platformFee fees.platformFeeInHostCurrency res.fxRates := by
  unfold computeExpenseAmounts at h
  split at h
  · injection h with h
    subst h
    exact ⟨⟨rfl, rfl, rfl⟩, ⟨rfl, rfl, rfl⟩, ⟨rfl, rfl, rfl⟩, ⟨rfl, rfl, rfl⟩⟩
  · split at h
    · injection h with h
      subst h
      exact ⟨⟨rfl, rfl, rfl⟩, ⟨rfl, rfl, rfl⟩, ⟨rfl, rfl, rfl⟩, ⟨rfl, rfl, rfl⟩⟩
    · exact absurd h (by simp)

/-- C2 witness: the theorem applied at a concrete input. -/
theorem computeExpenseAmounts_representations_spec_witness :
    ∃ res, computeExpenseAmounts sampleExpense "USD" 2 (mergeDefaultFees sampleFees) =
        Except.ok res ∧
      ((res.amount.inHostCurrency = jsRound ((sampleExpense.amount : ℚ) * res.fxRates.expenseToHost) ∧
        res.amount.inCollectiveCurrency =
          jsRound ((sampleExpense.amount : ℚ) * res.fxRates.expenseToCollective) ∧
        res.amount.inExpenseCurrency = sampleExpense.amount) ∧
       feeRepr res.paymentProcessorFee (mergeDefaultFees sampleFees).paymentProcessorFeeInHostCurrency res.fxRates ∧
       feeRepr res.hostFee (mergeDefaultFees sampleFees).hostFeeInHostCurrency res.fxRates ∧
       feeRepr res.platformFee (mergeDefaultFees sampleFees).platformFeeInHostCurrency res.fxRates) :=
  ⟨_, rfl, computeExpenseAmounts_representations_spec sampleExpense "USD" 2
    (mergeDefaultFees sampleFees) _ rfl⟩

/-! ### C3 -/

/-- C3 counterexample: with expense currency USD, collective currency EUR and
host currency USD, only one of the expense/collective currencies differs from
the host currency, yet computeExpenseAmounts fails with the
unsupported-combination error instead of succeeding. -/
theorem computeExpenseAmounts_atMostOne_counterexample :
    sampleExpenseUsdEur.currency = "USD" ∧
    sampleExpenseUsdEur.collective.currency = "EUR" ∧
    computeExpenseAmounts sampleExpenseUsdEur "USD" 1 (mergeDefaultFees sampleFees) =
      Except.error unsupportedCurrencyMsg :=
  ⟨rfl, rfl, rfl⟩

/-- C3 (amended): computeExpenseAmounts succeeds precisely when the collective
currency equals the host currency or the expense currency equals the
collective currency, and fails with the unsupported-combination error in every
other case (in particular when the three currencies are mutually distinct, but
also when the expense currency equals the host currency while the collective
currency differs from both). -/
theorem computeExpenseAmounts_supported_iff (e : Expense) (hc : String)
    (r : ℚ) (fees : Fees) :
    ((e.collective.currency = hc ∨ e.currency = e.collective.currency) →
      ∃ res, computeExpenseAmounts e hc r fees = Except.ok res) ∧
    (¬ (e.collective.currency = hc ∨ e.currency = e.collective.currency) →
      computeExpenseAmounts e hc r fees = Except.error unsupportedCurrencyMsg) := by
  constructor
  · rintro (h | h)
    · refine ⟨computeAmountsWith e fees
        { expenseToHost := r, collectiveToHost := 1, expenseToCollective := r }, ?_⟩
      simp [computeExpenseAmounts, h]
    · by_cases h2 : e.collective.currency = hc
      · refine ⟨computeAmountsWith e fees
          { expenseToHost := r, collectiveToHost := 1, expenseToCollective := r }, ?_⟩
        simp [computeExpenseAmounts, h2]
      · refine ⟨computeAmountsWith e fees
          { expenseToHost := r, collectiveToHost := r, expenseToCollective := 1 }, ?_⟩
        simp [computeExpenseAmounts, h2, h]
  · intro h
    push_neg at h
    simp [computeExpenseAmounts, h.1, h.2]

/-- C3 (amended) witness: the theorem applied at a concrete input. -/
theorem computeExpenseAmounts_supported_iff_witness :
    (sampleExpense.collective.currency = "USD" ∨
      sampleExpense.currency = sampleExpense.collective.currency) ∧
    (∃ res, computeExpenseAmounts sampleExpense "USD" 1 (mergeDefaultFees sampleFees) =
      Except.ok res) :=
  ⟨Or.inl rfl,
   (computeExpenseAmounts_supported_iff sampleExpense "USD" 1 (mergeDefaultFees sampleFees)).1
     (Or.inl rfl)⟩

/-! ### C6 -/

/-- C6: computeExpenseTaxes returns null exactly when the expense has no tax
lines; otherwise it returns the negated rounding of amount minus
amount / (1 + sum of the rates); in particular 1200 with one 20 percent line
gives -200, one zero-rate line gives 0 (not null), and no lines give null. -/
theorem computeExpenseTaxes_spec (e : Expense) :
    (e.taxes = [] → computeExpenseTaxes e = none) ∧
    (e.taxes ≠ [] →
      computeExpenseTaxes e =
        some (-jsRound ((e.amount : ℚ) -
          (e.amount : ℚ) / (1 + (e.taxes.map TaxLine.rate).sum)))) ∧
    computeExpenseTaxes sampleTaxExpense = some (-200) ∧
    computeExpenseTaxes sampleZeroTaxExpense = some 0 ∧
    computeExpenseTaxes sampleExpense = none := by
  refine ⟨fun h => by simp [computeExpenseTaxes, h],
    fun h => by simp [computeExpenseTaxes, List.isEmpty_iff, h], ?_, ?_, ?_⟩
  · norm_num [computeExpenseTaxes, sampleTaxExpense, sampleExpense, jsRound]
  · norm_num [computeExpenseTaxes, sampleZeroTaxExpense, sampleExpense, jsRound]
  · norm_num [computeExpenseTaxes, sampleExpense]

/-- C6 witness: the theorem applied at a concrete input, with the nonempty
tax-line hypothesis discharged. -/
theorem computeExpenseTaxes_spec_witness :
    sampleTaxExpense.taxes ≠ [] ∧
    computeExpenseTaxes sampleTaxExpense =
      some (-jsRound ((sampleTaxExpense.amount : ℚ) -
        (sampleTaxExpense.amount : ℚ) / (1 + (sampleTaxExpense.taxes.map TaxLine.rate).sum))) :=
  ⟨by decide, (computeExpenseTaxes_spec sampleTaxExpense).2.1 (by decide)⟩

/-! ### C4 -/

/-- jsGet finds the binding a jsSet just wrote. -/
theorem jsGet_jsSet_self (o : JsObject) (k : String) (v : DataValue) :
    jsGet (jsSet o k v) k = some v := by
  simp [jsGet, jsSet, List.foldl_append]

/-- C4: for every successful auto-paid build whose payer is not PAYEE (with the
fees non-negative as the data model requires), the record submitted to the
double-entry writer has type DEBIT, kind EXPENSE, the collective currency,
amount the negated collective-currency gross, amountInHostCurrency the negated
host-currency gross,
netAmountInCollectiveCurrency the negated sum of the collective-currency gross
and the three collective-currency fees, each stored fee the negated
host-currency fee, and hostCurrencyFxRate = collectiveToHost; at the concrete
all-USD input with amount 10000, rate 1 and zero fees all three amount fields
are -10000. -/
theorem createTransactionsFromPaidExpense_record_spec (host : Host) (e : Expense)
    (fi : FeesInput) (cfg : FxRateConfig) (live : ℚ) (td : Option JsObject) (pm : Option ℤ)
    (res : ProcessedAmounts) (t : TransactionRecord)
    (hfp : e.feesPayer ≠ "PAYEE")
    (hpp : 0 ≤ (mergeDefaultFees fi).paymentProcessorFeeInHostCurrency)
    (hhf : 0 ≤ (mergeDefaultFees fi).hostFeeInHostCurrency)
    (hpf : 0 ≤ (mergeDefaultFees fi).platformFeeInHostCurrency)
    (hres : computeExpenseAmounts e host.currency (resolveFxRate cfg live)
      (mergeDefaultFees fi) = Except.ok res)
    (ht : createTransactionsFromPaidExpense host e fi cfg live td pm = Except.ok t) :
    (t.type = "DEBIT" ∧ t.kind = "EXPENSE" ∧ t.currency = e.collective.currency ∧
     t.amount = -res.amount.inCollectiveCurrency ∧
     t.amountInHostCurrency = -res.amount.inHostCurrency ∧
     t.netAmountInCollectiveCurrency =
       -(res.amount.inCollectiveCurrency + res.paymentProcessorFee.inCollectiveCurrency +
         res.hostFee.inCollectiveCurrency + res.platformFee.inCollectiveCurrency) ∧
     t.paymentProcessorFeeInHostCurrency =
       -(mergeDefaultFees fi).paymentProcessorFeeInHostCurrency ∧
     t.hostFeeInHostCurrency = -(mergeDefaultFees fi).hostFeeInHostCurrency ∧
     t.platformFeeInHostCurrency = -(mergeDefaultFees fi).platformFeeInHostCurrency ∧
     t.hostCurrencyFxRate = res.fxRates.collectiveToHost) ∧
    (createTransactionsFromPaidExpense sampleHost sampleExpense sampleFees
        (FxRateConfig.explicit 1) 0 none none).toOption.map
      (fun t0 => (t0.amount, t0.amountInHostCurrency, t0.netAmountInCollectiveCurrency)) =
      some (-10000, -10000, -10000) := by
  constructor
  · simp only [createTransactionsFromPaidExpense, hres] at ht
    rw [if_neg hfp] at ht
    injection ht with ht
    subst ht
    refine ⟨rfl, rfl, rfl, rfl, rfl, neg_one_mul _, ?_, ?_, ?_, rfl⟩
    · exact toNegative_of_nonneg hpp
    · exact toNegative_of_nonneg hhf
    · exact toNegative_of_nonneg hpf
  · have hres0 : computeExpenseAmounts sampleExpense sampleHost.currency
        (resolveFxRate (FxRateConfig.explicit 1) 0) (mergeDefaultFees sampleFees) =
        Except.ok (computeAmountsWith sampleExpense (mergeDefaultFees sampleFees)
          { expenseToHost := 1, collectiveToHost := 1, expenseToCollective := 1 }) := by
      simp [computeExpenseAmounts, sampleExpense, sampleHost, resolveFxRate]
    simp only [createTransactionsFromPaidExpense, hres0]
    rw [if_neg (by decide : ¬ (sampleExpense.feesPayer = "PAYEE"))]
    norm_num [sampleExpense, sampleHost, sampleFees, mergeDefaultFees, computeAmountsWith,
      jsRound, toNegative, Except.toOption]

/-- C4 witness: the theorem applied at a concrete input, every hypothesis
discharged there. -/
theorem createTransactionsFromPaidExpense_record_spec_witness :
    ∃ res t,
      computeExpenseAmounts sampleExpense sampleHost.currency
          (resolveFxRate (FxRateConfig.explicit 1) 0) (mergeDefaultFees sampleFees) =
        Except.ok res ∧
      createTransactionsFromPaidExpense sampleHost sampleExpense sampleFees
          (FxRateConfig.explicit 1) 0 none none = Except.ok t ∧
      t.type = "DEBIT" ∧ t.amount = -res.amount.inCollectiveCurrency ∧
      t.hostCurrencyFxRate = res.fxRates.collectiveToHost := by
  have hres : computeExpenseAmounts sampleExpense sampleHost.currency
      (resolveFxRate (FxRateConfig.explicit 1) 0) (mergeDefaultFees sampleFees) =
      Except.ok (computeAmountsWith sampleExpense (mergeDefaultFees sampleFees)
        { expenseToHost := 1, collectiveToHost := 1, expenseToCollective := 1 }) := by
    simp [computeExpenseAmounts, sampleExpense, sampleHost, resolveFxRate]
  obtain ⟨t, ht⟩ :
      ∃ t, createTransactionsFromPaidExpense sampleHost sampleExpense sampleFees
        (FxRateConfig.explicit 1) 0 none none = Except.ok t := by
    simp only [createTransactionsFromPaidExpense, hres]
    rw [if_neg (by decide : ¬ (sampleExpense.feesPayer = "PAYEE"))]
    exact ⟨_, rfl⟩
  have h := createTransactionsFromPaidExpense_record_spec sampleHost sampleExpense sampleFees
    (FxRateConfig.explicit 1) 0 none none _ t (by simp [sampleExpense]) (by simp [mergeDefaultFees, sampleFees])
    (by simp [mergeDefaultFees, sampleFees]) (by simp [mergeDefaultFees, sampleFees]) hres ht
  exact ⟨_, t, hres, ht, h.1.1, h.1.2.2.2.1, h.1.2.2.2.2.2.2.2.2.2⟩

/-! ### C5 -/

/-- A sample PAYEE-fees expense, otherwise identical to sampleExpense. -/
def samplePayeeExpense : Expense := { sampleExpense with feesPayer := "PAYEE" }

/-- C5: for every successful auto-paid build with feesPayer PAYEE, relative to
the record built from the same inputs with feesPayer COLLECTIVE: amount grows
by the collective-currency processor fee, amountInHostCurrency by the
host-currency processor fee, and netAmountInCollectiveCurrency by the
collective-currency processor fee, so that it ends at the negated sum of the
collective-currency gross, host fee and platform fee; and data.feesPayer is
set to PAYEE. -/
theorem createTransactionsFromPaidExpense_payee_spec (host : Host) (e : Expense)
    (fi : FeesInput) (cfg : FxRateConfig) (live : ℚ) (td : Option JsObject) (pm : Option ℤ)
    (res : ProcessedAmounts) (t t' : TransactionRecord)
    (hfp : e.feesPayer = "PAYEE")
    (hres : computeExpenseAmounts e host.currency (resolveFxRate cfg live)
      (mergeDefaultFees fi) = Except.ok res)
    (ht : createTransactionsFromPaidExpense host e fi cfg live td pm = Except.ok t)
    (ht' : createTransactionsFromPaidExpense host { e with feesPayer := "COLLECTIVE" } fi cfg
      live td pm = Except.ok t') :
    t.amount = t'.amount + res.paymentProcessorFee.inCollectiveCurrency ∧
    t.amountInHostCurrency = t'.amountInHostCurrency + res.paymentProcessorFee.inHostCurrency ∧
    t.netAmountInCollectiveCurrency =
      t'.netAmountInCollectiveCurrency + res.paymentProcessorFee.inCollectiveCurrency ∧
    t.netAmountInCollectiveCurrency =
      -(res.amount.inCollectiveCurrency + res.hostFee.inCollectiveCurrency +
        res.platformFee.inCollectiveCurrency) ∧
    jsGet t.data "feesPayer" = some (DataValue.str "PAYEE") := by
  have hres' : computeExpenseAmounts { e with feesPayer := "COLLECTIVE" } host.currency
      (resolveFxRate cfg live) (mergeDefaultFees fi) = Except.ok res := hres
  simp only [createTransactionsFromPaidExpense, hres] at ht
  simp only [createTransactionsFromPaidExpense, hres'] at ht'
  rw [if_pos hfp] at ht
  injection ht with ht
  subst ht
  split at ht'
  · rename_i hcond
    simp at hcond
  · injection ht' with ht'
    subst ht'
    refine ⟨rfl, rfl, rfl, ?_, ?_⟩
    · dsimp
      ring
    · exact jsGet_jsSet_self _ _ _

/-- C5 witness: the theorem applied at a concrete PAYEE input, every
hypothesis discharged there. -/
theorem createTransactionsFromPaidExpense_payee_spec_witness :
    ∃ res t t',
      samplePayeeExpense.feesPayer = "PAYEE" ∧
      computeExpenseAmounts samplePayeeExpense sampleHost.currency
          (resolveFxRate (FxRateConfig.explicit 1) 0) (mergeDefaultFees sampleFees) =
        Except.ok res ∧
      createTransactionsFromPaidExpense sampleHost samplePayeeExpense sampleFees
          (FxRateConfig.explicit 1) 0 none none = Except.ok t ∧
      createTransactionsFromPaidExpense sampleHost
          { samplePayeeExpense with feesPayer := "COLLECTIVE" } sampleFees
          (FxRateConfig.explicit 1) 0 none none = Except.ok t' ∧
      t.amount = t'.amount + res.paymentProcessorFee.inCollectiveCurrency ∧
      jsGet t.data "feesPayer" = some (DataValue.str "PAYEE") := by
  have hres : computeExpenseAmounts samplePayeeExpense sampleHost.currency
      (resolveFxRate (FxRateConfig.explicit 1) 0) (mergeDefaultFees sampleFees) =
      Except.ok (computeAmountsWith samplePayeeExpense (mergeDefaultFees sampleFees)
        { expenseToHost := 1, collectiveToHost := 1, expenseToCollective := 1 }) := by
    simp [computeExpenseAmounts, samplePayeeExpense, sampleExpense, sampleHost, resolveFxRate]
  have hres' : computeExpenseAmounts { samplePayeeExpense with feesPayer := "COLLECTIVE" }
      sampleHost.currency (resolveFxRate (FxRateConfig.explicit 1) 0)
      (mergeDefaultFees sampleFees) =
      Except.ok (computeAmountsWith samplePayeeExpense (mergeDefaultFees sampleFees)
        { expenseToHost := 1, collectiveToHost := 1, expenseToCollective := 1 }) := hres
  obtain ⟨t, ht⟩ :
      ∃ t, createTransactionsFromPaidExpense sampleHost samplePayeeExpense sampleFees
        (FxRateConfig.explicit 1) 0 none none = Except.ok t := by
    simp only [createTransactionsFromPaidExpense, hres]
    rw [if_pos (by decide : samplePayeeExpense.feesPayer = "PAYEE")]
    exact ⟨_, rfl⟩
  obtain ⟨t', ht'⟩ :
      ∃ t', createTransactionsFromPaidExpense sampleHost
        { samplePayeeExpense with feesPayer := "COLLECTIVE" } sampleFees
        (FxRateConfig.explicit 1) 0 none none = Except.ok t' := by
    simp only [createTransactionsFromPaidExpense, hres']
    rw [if_neg (by decide :
      ¬ (({ samplePayeeExpense with feesPayer := "COLLECTIVE" } : Expense).feesPayer = "PAYEE"))]
    exact ⟨_, rfl⟩
  have h := createTransactionsFromPaidExpense_payee_spec sampleHost samplePayeeExpense
    sampleFees (FxRateConfig.explicit 1) 0 none none _ t t' (by decide) hres ht ht'
  exact ⟨_, t, t', by decide, hres, ht, ht', h.1, h.2.2.2.2⟩

/-! ### C7 -/

/-- C7 counterexample: processor fee 200 and total paid 100 pass both
preconditions (fee ≥ 0, total > 0), but the submitted gross amount is -100,
not -(100 - 200) = 100 as the claim dictates: the gross is clamped to a
non-positive outflow value. -/
theorem createTransactionsForManuallyPaidExpense_gross_counterexample :
    (createTransactionsForManuallyPaidExpense sampleHost sampleExpense 200 100 []).toOption.map
      TransactionRecord.amount = some (-100) ∧
    some (-100 : ℤ) ≠ some (-(100 - 200) : ℤ) := by
  refine ⟨?_, by decide⟩
  simp [createTransactionsForManuallyPaidExpense, sampleHost, sampleExpense, toNegative,
    Except.toOption]

/-- C7 (amended): the manual builder rejects a negative processor fee or a
non-positive total with the corresponding precondition error; for fee ≥ 0 and
total > 0 with host currency equal to the collective currency it sets
amount = amountInHostCurrency = the non-positive value toNegative (total -
fee), which is -(total - fee) whenever fee ≤ total,
netAmountInCollectiveCurrency = -total and hostCurrencyFxRate = 1; when the
host currency differs from the collective currency it fails unless the expense
currency equals the collective currency, and otherwise derives
hostCurrencyFxRate = round(|gross / expense.amount|, 5) and divides amount and
netAmountInCollectiveCurrency by that rate, rounding each. -/
theorem createTransactionsForManuallyPaidExpense_spec (host : Host) (e : Expense)
    (fee total : ℤ) (td : JsObject) :
    (fee < 0 →
      createTransactionsForManuallyPaidExpense host e fee total td =
        Except.error "Payment processor fee must be positive") ∧
    (0 ≤ fee → total ≤ 0 →
      createTransactionsForManuallyPaidExpense host e fee total td =
        Except.error "Total amount paid must be positive") ∧
    (0 ≤ fee → 0 < total → host.currency = e.collective.currency →
      ∃ t, createTransactionsForManuallyPaidExpense host e fee total td = Except.ok t ∧
        t.amount = toNegative (total - fee) ∧
        (fee ≤ total → t.amount = -(total - fee)) ∧
        t.amountInHostCurrency = toNegative (total - fee) ∧
        t.netAmountInCollectiveCurrency = -total ∧
        t.hostCurrencyFxRate = 1) ∧
    (0 ≤ fee → 0 < total → host.currency ≠ e.collective.currency →
      (e.currency ≠ e.collective.currency →
        createTransactionsForManuallyPaidExpense host e fee total td =
          Except.error "Expense currency must be the same as collective currency") ∧
      (e.currency = e.collective.currency →
        ∃ t, createTransactionsForManuallyPaidExpense host e fee total td = Except.ok t ∧
          t.hostCurrencyFxRate =
            jsRoundP |(toNegative (total - fee) : ℚ) / (e.amount : ℚ)| 5 ∧
          t.amount = jsRound ((toNegative (total - fee) : ℚ) / t.hostCurrencyFxRate) ∧
          t.netAmountInCollectiveCurrency =
            jsRound (((-total : ℤ) : ℚ) / t.hostCurrencyFxRate) ∧
          t.amountInHostCurrency = toNegative (total - fee))) := by
  refine ⟨?_, ?_, ?_, ?_⟩
  · intro h
    rw [createTransactionsForManuallyPaidExpense, if_neg (not_le.mpr h)]
  · intro h1 h2
    rw [createTransactionsForManuallyPaidExpense, if_pos h1, if_neg (not_lt.mpr h2)]
  · intro h1 h2 h3
    rw [createTransactionsForManuallyPaidExpense, if_pos h1, if_pos h2]
    simp only [if_neg (not_not_intro h3)]
    refine ⟨_, rfl, rfl, ?_, ?_, ?_, rfl⟩
    · intro hle
      exact toNegative_of_nonneg (sub_nonneg.mpr hle)
    · rfl
    · exact toNegative_of_nonneg h2.le
  · intro h1 h2 h3
    constructor
    · intro h4
      rw [createTransactionsForManuallyPaidExpense, if_pos h1, if_pos h2]
      simp only [if_pos h3, if_pos h4]
    · intro h4
      rw [createTransactionsForManuallyPaidExpense, if_pos h1, if_pos h2]
      simp only [if_pos h3, if_neg (not_not_intro h4)]
      refine ⟨_, rfl, rfl, rfl, ?_, rfl⟩
      rw [toNegative_of_nonneg h2.le]

/-- C7 (amended) witness: the theorem applied at a concrete same-currency
input, with both preconditions discharged. -/
theorem createTransactionsForManuallyPaidExpense_spec_witness :
    (0 : ℤ) ≤ 0 ∧ (0 : ℤ) < 10000 ∧ sampleHost.currency = sampleExpense.collective.currency ∧
    (∃ t, createTransactionsForManuallyPaidExpense sampleHost sampleExpense 0 10000 [] =
        Except.ok t ∧
      t.amount = toNegative (10000 - 0) ∧
      ((0 : ℤ) ≤ 10000 → t.amount = -(10000 - 0)) ∧
      t.amountInHostCurrency = toNegative (10000 - 0) ∧
      t.netAmountInCollectiveCurrency = -10000 ∧
      t.hostCurrencyFxRate = 1) :=
  ⟨le_refl 0, by decide, rfl,
   (createTransactionsForManuallyPaidExpense_spec sampleHost sampleExpense 0 10000 []).2.2.1
     (le_refl 0) (by decide) rfl⟩

/-! ### C10 -/

/-- Folding the jsGet step over bindings that never carry the key leaves the
accumulator unchanged. -/
theorem jsGet_foldl_no_key (o : JsObject) (k : String) (acc : Option DataValue)
    (h : ∀ kv ∈ o, kv.1 ≠ k) :
    o.foldl (fun acc kv => if kv.1 = k then some kv.2 else acc) acc = acc := by
  induction o generalizing acc with
  | nil => rfl
  | cons hd tl ih =>
    have hhd : hd.1 ≠ k := h hd (by simp)
    simp only [List.foldl_cons, if_neg hhd]
    exact ih acc fun kv hkv => h kv (List.mem_cons_of_mem _ hkv)

/-- A binding at the head of the object wins when no later binding shares its
key. -/
theorem jsGet_head_of_no_key (k : String) (v : DataValue) (o : JsObject)
    (h : ∀ kv ∈ o, kv.1 ≠ k) : jsGet ((k, v) :: o) k = some v := by
  unfold jsGet
  simp only [List.foldl_cons, if_pos rfl]
  exact jsGet_foldl_no_key o k (some v) h

/-- C10 counterexample: a caller-supplied transactionData that already carries
an isManual key overrides the builder, so the submitted record has
data.isManual = false, not true as the claim dictates. -/
theorem createTransactionsForManuallyPaidExpense_isManual_counterexample :
    (createTransactionsForManuallyPaidExpense sampleHost sampleExpense 0 10000
        [("isManual", DataValue.bool false)]).toOption.map
      (fun t => jsGet t.data "isManual") = some (some (DataValue.bool false)) ∧
    some (some (DataValue.bool false)) ≠ some (some (DataValue.bool true)) := by
  exact ⟨by decide, by decide⟩

/-- C10 (amended): for every successful manual build whose caller-supplied
transactionData does not itself carry an isManual key, the submitted record has
data.isManual = true (with the tax block and caller data merged alongside); a
caller-supplied isManual binding would override the flag, because the caller
data is spread after it. -/
theorem createTransactionsForManuallyPaidExpense_isManual_spec (host : Host) (e : Expense)
    (fee total : ℤ) (td : JsObject) (t : TransactionRecord)
    (htd : ∀ kv ∈ td, kv.1 ≠ "isManual")
    (ht : createTransactionsForManuallyPaidExpense host e fee total td = Except.ok t) :
    jsGet t.data "isManual" = some (DataValue.bool true) := by
  have h1 : ∀ kv ∈ (if e.feesPayer = "PAYEE"
      then jsSet td "feesPayer" (DataValue.str "PAYEE") else td), kv.1 ≠ "isManual" := by
    split
    · intro kv hkv
      rcases List.mem_append.mp hkv with hkv | hkv
      · exact htd kv hkv
      · simp only [List.mem_singleton] at hkv
        subst hkv
        decide
    · exact htd
  have h2 : ∀ kv ∈ expenseTaxDataEntries e, kv.1 ≠ "isManual" := by
    unfold expenseTaxDataEntries
    split
    · intro kv hkv
      simp at hkv
    · intro kv hkv
      simp only [List.mem_singleton] at hkv
      subst hkv
      show ("tax" : String) ≠ "isManual"
      decide
  simp only [createTransactionsForManuallyPaidExpense] at ht
  split at ht
  · split at ht
    · split at ht
      · exact absurd ht (by simp)
      · injection ht with ht
        subst ht
        refine jsGet_head_of_no_key _ _ _ ?_
        intro kv hkv
        rcases List.mem_append.mp hkv with hkv | hkv
        · exact h1 kv hkv
        · exact h2 kv hkv
    · exact absurd ht (by simp)
  · exact absurd ht (by simp)

/-- C10 (amended) witness: the theorem applied at a concrete input whose
caller data has no isManual key. -/
theorem createTransactionsForManuallyPaidExpense_isManual_spec_witness :
    (∀ kv ∈ ([("note", DataValue.str "wire")] : JsObject), kv.1 ≠ "isManual") ∧
    (∃ t, createTransactionsForManuallyPaidExpense sampleHost sampleExpense 0 10000
        [("note", DataValue.str "wire")] = Except.ok t ∧
      jsGet t.data "isManual" = some (DataValue.bool true)) := by
  have hkeys : ∀ kv ∈ ([("note", DataValue.str "wire")] : JsObject), kv.1 ≠ "isManual" := by
    intro kv hkv
    simp only [List.mem_singleton] at hkv
    subst hkv
    decide
  obtain ⟨t, ht⟩ :
      ∃ t, createTransactionsForManuallyPaidExpense sampleHost sampleExpense 0 10000
        [("note", DataValue.str "wire")] = Except.ok t := by
    have hok : (createTransactionsForManuallyPaidExpense sampleHost sampleExpense 0 10000
        [("note", DataValue.str "wire")]).isOk = true := by decide
    cases hcall : createTransactionsForManuallyPaidExpense sampleHost sampleExpense 0 10000
        [("note", DataValue.str "wire")] with
    | error e =>
      rw [hcall] at hok
      exact absurd hok (by simp [Except.isOk, Except.toBool])
    | ok t => exact ⟨t, rfl⟩
  exact ⟨hkeys, t, ht,
    createTransactionsForManuallyPaidExpense_isManual_spec sampleHost sampleExpense
      0 10000 _ t hkeys ht⟩

/-! ### C9 -/

/-- An expense in EUR for a EUR collective (host differs). -/
def sampleExpenseEur : Expense :=
  { sampleExpense with currency := "EUR", collective := { currency := "EUR" } }

/-- A 49-unit payment processor fee, the other fees zero. -/
def fees49 : Fees where
  paymentProcessorFeeInHostCurrency := 49
  hostFeeInHostCurrency := 0
  platformFeeInHostCurrency := 0

/-- C9 counterexample: with the supported combination expense EUR, collective
EUR, host USD and rate 100, a 49-unit processor fee is returned as 0 in
collective currency, so the host value differs from the scaled-back collective
value by 49 minor units, far beyond the claimed tolerance of 1. -/
theorem computeExpenseAmounts_reconciliation_counterexample :
    (computeExpenseAmounts sampleExpenseEur "USD" 100 fees49).toOption.map
      (fun res => (res.paymentProcessorFee.inHostCurrency,
        res.paymentProcessorFee.inCollectiveCurrency, res.fxRates.collectiveToHost)) =
      some (49, 0, 100) ∧
    ¬ (|(49 : ℚ) - (0 : ℚ) * 100| ≤ 1) := by
  constructor
  · have h : computeExpenseAmounts sampleExpenseEur "USD" 100 fees49 =
        Except.ok (computeAmountsWith sampleExpenseEur fees49
          { expenseToHost := 100, collectiveToHost := 100, expenseToCollective := 1 }) := rfl
    rw [h]
    refine congrArg some ?_
    norm_num [computeAmountsWith, sampleExpenseEur, sampleExpense, fees49, jsRound]
  · norm_num

/-- The host-currency value of a fee triple is within half an FX-rate unit of
its collective-currency value scaled by collectiveToHost, and of its
expense-currency value scaled by expenseToHost. -/
def feeWithinHalfRate (f : AmountTriple) (fx : FxRates) : Prop :=
  |(f.inHostCurrency : ℚ) - (f.inCollectiveCurrency : ℚ) * fx.collectiveToHost| ≤
    fx.collectiveToHost / 2 ∧
  |(f.inHostCurrency : ℚ) - (f.inExpenseCurrency : ℚ) * fx.expenseToHost| ≤
    fx.expenseToHost / 2

/-- Rounding a division and scaling back moves the value by at most half the
(positive) divisor. -/
theorem jsRound_div_scale_close (fee : ℤ) (c : ℚ) (hc : 0 < c) :
    |(fee : ℚ) - (jsRound ((fee : ℚ) / c) : ℚ) * c| ≤ c / 2 := by
  have h1 := jsRound_close ((fee : ℚ) / c)
  have hc0 : c ≠ 0 := ne_of_gt hc
  have heq : (fee : ℚ) - (jsRound ((fee : ℚ) / c) : ℚ) * c =
      -(((jsRound ((fee : ℚ) / c) : ℚ) - (fee : ℚ) / c) * c) := by
    field_simp
  rw [heq, abs_neg, abs_mul, abs_of_pos hc]
  calc |(jsRound ((fee : ℚ) / c) : ℚ) - (fee : ℚ) / c| * c ≤ (1/2) * c :=
        mul_le_mul_of_nonneg_right h1 hc.le
    _ = c / 2 := by ring

/-- C9 (amended): for every supported currency combination and positive FX
rate, each returned fee triple satisfies the reconciliation bounds within half
an FX-rate unit: the host value is within collectiveToHost/2 of the
collective value scaled back, and within expenseToHost/2 of the expense value
scaled back; in particular within 1 minor unit whenever the respective rate is
at most 2 (the claimed uniform tolerance of 1 fails for larger rates). -/
theorem computeExpenseAmounts_fee_reconciliation (e : Expense) (hc : String) (r : ℚ)
    (fees : Fees) (res : ProcessedAmounts) (hr : 0 < r)
    (h : computeExpenseAmounts e hc r fees = Except.ok res) :
    (feeWithinHalfRate res.paymentProcessorFee res.fxRates ∧
     feeWithinHalfRate res.hostFee res.fxRates ∧
     feeWithinHalfRate res.platformFee res.fxRates) ∧
    (res.fxRates.collectiveToHost ≤ 2 →
      |(res.paymentProcessorFee.inHostCurrency : ℚ) -
          (res.paymentProcessorFee.inCollectiveCurrency : ℚ) * res.fxRates.collectiveToHost| ≤ 1 ∧
      |(res.hostFee.inHostCurrency : ℚ) -
          (res.hostFee.inCollectiveCurrency : ℚ) * res.fxRates.collectiveToHost| ≤ 1 ∧
      |(res.platformFee.inHostCurrency : ℚ) -
          (res.platformFee.inCollectiveCurrency : ℚ) * res.fxRates.collectiveToHost| ≤ 1) ∧
    (res.fxRates.expenseToHost ≤ 2 →
      |(res.paymentProcessorFee.inHostCurrency : ℚ) -
          (res.paymentProcessorFee.inExpenseCurrency : ℚ) * res.fxRates.expenseToHost| ≤ 1 ∧
      |(res.hostFee.inHostCurrency : ℚ) -
          (res.hostFee.inExpenseCurrency : ℚ) * res.fxRates.expenseToHost| ≤ 1 ∧
      |(res.platformFee.inHostCurrency : ℚ) -
          (res.platformFee.inExpenseCurrency : ℚ) * res.fxRates.expenseToHost| ≤ 1) := by
  unfold computeExpenseAmounts at h
  split at h
  · injection h with h
    subst h
    dsimp only [computeAmountsWith, feeWithinHalfRate]
    have k1 := jsRound_div_scale_close fees.paymentProcessorFeeInHostCurrency 1 one_pos
    have k2 := jsRound_div_scale_close fees.hostFeeInHostCurrency 1 one_pos
    have k3 := jsRound_div_scale_close fees.platformFeeInHostCurrency 1 one_pos
    have k4 := jsRound_div_scale_close fees.paymentProcessorFeeInHostCurrency r hr
    have k5 := jsRound_div_scale_close fees.hostFeeInHostCurrency r hr
    have k6 := jsRound_div_scale_close fees.platformFeeInHostCurrency r hr
    refine ⟨⟨⟨k1, k4⟩, ⟨k2, k5⟩, ⟨k3, k6⟩⟩, ?_, ?_⟩
    · intro _
      exact ⟨k1.trans (by norm_num), k2.trans (by norm_num), k3.trans (by norm_num)⟩
    · intro hle
      exact ⟨k4.trans (by linarith), k5.trans (by linarith), k6.trans (by linarith)⟩
  · split at h
    · injection h with h
      subst h
      dsimp only [computeAmountsWith, feeWithinHalfRate]
      have k1 := jsRound_div_scale_close fees.paymentProcessorFeeInHostCurrency r hr
      have k2 := jsRound_div_scale_close fees.hostFeeInHostCurrency r hr
      have k3 := jsRound_div_scale_close fees.platformFeeInHostCurrency r hr
      refine ⟨⟨⟨k1, k1⟩, ⟨k2, k2⟩, ⟨k3, k3⟩⟩, ?_, ?_⟩
      · intro hle
        exact ⟨k1.trans (by linarith), k2.trans (by linarith), k3.trans (by linarith)⟩
      · intro hle
        exact ⟨k1.trans (by linarith), k2.trans (by linarith), k3.trans (by linarith)⟩
    · exact absurd h (by simp)

/-- C9 (amended) witness: the theorem applied at a concrete input. -/
theorem computeExpenseAmounts_fee_reconciliation_witness :
    (0 : ℚ) < 2 ∧
    (∃ res, computeExpenseAmounts sampleExpense "USD" 2 fees49 = Except.ok res ∧
      (feeWithinHalfRate res.paymentProcessorFee res.fxRates ∧
       feeWithinHalfRate res.hostFee res.fxRates ∧
       feeWithinHalfRate res.platformFee res.fxRates)) := by
  have hres : computeExpenseAmounts sampleExpense "USD" 2 fees49 =
      Except.ok (computeAmountsWith sampleExpense fees49
        { expenseToHost := 2, collectiveToHost := 1, expenseToCollective := 2 }) := by
    simp [computeExpenseAmounts, sampleExpense]
  exact ⟨by norm_num, _, hres,
    (computeExpenseAmounts_fee_reconciliation sampleExpense "USD" 2 fees49 _
      (by norm_num) hres).1⟩

/-! ### C8 -/

end Transactions
